import Mathlib

/-!
# Mini-transaction handle of InnoDB (storage/innobase/include/mtr0mtr.h)

A shallow embedding of `struct mtr_t` and of the member functions whose bodies
are given in the header.  The embedding follows the `UNIV_DEBUG` build, in which
the fields `m_start`, `m_commit` and `m_user_space_id` exist, `ut_d(x)` executes
`x`, and a failed `ut_ad(c)` aborts the process.  An aborted call is `none`.

Machine integers are natural numbers; a store into a narrower field is an
explicit reduction modulo the width of the field.  Pointers are modelled by
`Option` (the null pointer is `none`); a pointer to an object whose contents are
not changed by these operations is modelled by the object itself.
-/

namespace Mtr

/-! ## Types used by the header -/

/-- The type `ulint` (unsigned machine word). -/
abbrev ulint := Nat

/-- The type `lsn_t` (log sequence number). -/
abbrev lsn_t := Nat

/-- The address of an object stored in a memo slot (`void*`). -/
abbrev object_t := Nat

/-- The address of an rw-latch (`rw_lock_t*`). -/
abbrev rw_lock_t := Nat

/-- Debug assertion `ut_ad(c)`: the call aborts when `c` is false. -/
def ut_ad (c : Bool) : Option Unit :=
  if c then some () else none

/-- Modelled from the spec: the enumeration `mtr_log_t` is declared in
mtr0types.h, which is missing.  "logMode ∈ {ALL, NONE, NO_REDO}"; the header
fixes `MTR_LOG_ALL == 0` by a `static_assert`, stores the mode in a two-bit
field and asserts `m_log_mode <= MTR_LOG_NO_REDO`. -/
inductive mtr_log_t
  | MTR_LOG_ALL
  | MTR_LOG_NONE
  | MTR_LOG_NO_REDO
  deriving DecidableEq, Repr

/-- The numeric value of a logging mode: MTR_LOG_ALL is 0 and MTR_LOG_NO_REDO
is the largest, in the order in which the modes are listed. -/
def mtr_log_t.val : mtr_log_t → Nat
  | .MTR_LOG_ALL => 0
  | .MTR_LOG_NONE => 1
  | .MTR_LOG_NO_REDO => 2

/-- The cast `static_cast<mtr_log_t>(v)` of a value that passed the assertion
`v <= MTR_LOG_NO_REDO`. -/
def mtr_log_t.of_val : Nat → mtr_log_t
  | 0 => .MTR_LOG_ALL
  | 1 => .MTR_LOG_NONE
  | _ => .MTR_LOG_NO_REDO

/-- Modelled from the spec: the enumeration `mtr_memo_type_t` is declared in
mtr0types.h, which is missing.  The header names MTR_MEMO_S_LOCK,
MTR_MEMO_X_LOCK, MTR_MEMO_SX_LOCK, MTR_MEMO_PAGE_S_FIX and MTR_MEMO_PAGE_X_FIX;
the other kinds are the "page-SX-fix, page-buffer-fix, page-modified-marker"
of the memo slot kinds. -/
inductive mtr_memo_type_t
  | MTR_MEMO_PAGE_S_FIX
  | MTR_MEMO_PAGE_X_FIX
  | MTR_MEMO_PAGE_SX_FIX
  | MTR_MEMO_BUF_FIX
  | MTR_MEMO_MODIFY
  | MTR_MEMO_S_LOCK
  | MTR_MEMO_X_LOCK
  | MTR_MEMO_SX_LOCK
  deriving DecidableEq, Repr

/-- Mini-transaction memo stack slot. -/
structure mtr_memo_slot_t where
  /-- pointer to the object -/
  object : object_t
  /-- type of the stored object -/
  type : mtr_memo_type_t
  deriving DecidableEq, Repr

/-- Modelled from the spec: the enumeration `fil_type_t` is declared in
fil0fil.h, which is missing.  The header names three enumerators in its
assertions on `space->purpose`; any further enumerator is `other`. -/
inductive fil_type_t
  | FIL_TYPE_TEMPORARY
  | FIL_TYPE_IMPORT
  | FIL_TYPE_TABLESPACE
  | other (code : Nat)
  deriving DecidableEq, Repr

/-- Modelled from the spec: `fil_space_t` is declared in fil0fil.h, which is
missing.  These are the members that the header reads: the tablespace
identifier `id`, the `purpose`, and the address of the member `latch`. -/
structure fil_space_t where
  id : ulint
  purpose : fil_type_t
  latch : rw_lock_t
  deriving DecidableEq, Repr

/-- Modelled from the spec: `fil_system` is declared in fil0fil.h, which is
missing.  These are the parts that the header uses: the system tablespace
`fil_system.sys_space` and the lookup behind `fil_space_get`, both arbitrary. -/
structure fil_system_t where
  sys_space : Option fil_space_t
  lookup : ulint → Option fil_space_t

/-- Look up a tablespace by its identifier (`fil_space_get`). -/
def fil_space_get (fil_system : fil_system_t) (id : ulint) : Option fil_space_t :=
  fil_system.lookup id

/-- Modelled from the spec: the format of the redo log records is not in the
header.  "LogRecord { opcode, target-page-id, payload bytes }": the operation
code, the page it applies to (tablespace identifier and page number), the byte
offset in the page, and the payload bytes. -/
structure mlog_rec_t where
  opcode : Nat
  space_id : Nat
  page_no : Nat
  offset : Nat
  payload : List Nat
  deriving DecidableEq, Repr

/-- Mini-transaction handle and buffer.  The buffers `m_memo` and `m_log`
(`mtr_buf_t`, declared in dyn0buf.h, which is missing) are the "ordered
sequence of MemoSlot" and the "ordered sequence of LogRecord"; the size of a
buffer is the length of the sequence. -/
structure mtr_t where
  /-- whether start() has been called -/
  m_start : Bool
  /-- whether commit() has been called -/
  m_commit : Bool
  /-- specifies which operations should be logged (2 bits) -/
  m_log_mode : Nat
  /-- whether at least one buffer pool page was written to (1 bit) -/
  m_modifications : Bool
  /-- whether at least one previously clean buffer pool page was written to -/
  m_made_dirty : Bool
  /-- whether change buffer is latched -/
  m_inside_ibuf : Bool
  /-- number of m_log records (11 bits) -/
  m_n_log_recs : Nat
  /-- persistent user tablespace associated with the mini-transaction (32 bits) -/
  m_user_space_id : Nat
  /-- acquired dict_index_t::lock, fil_space_t::latch, buf_block_t -/
  m_memo : List mtr_memo_slot_t
  /-- mini-transaction log -/
  m_log : List mlog_rec_t
  /-- user tablespace that is being modified by the mini-transaction -/
  m_user_space : Option fil_space_t
  /-- page flush observer -/
  m_flush_observer : Option Nat
  /-- LSN at commit time -/
  m_commit_lsn : lsn_t
  deriving DecidableEq, Repr

/-- A call of a `const` member function inside a sequence of operations: the
result is returned together with the object, which a `const` member cannot
change. -/
def call_const {α : Type} (f : mtr_t → Option α) (m : mtr_t) : Option (α × mtr_t) :=
  (f m).map (fun r => (r, m))

/-! ## Member functions defined in the header -/

/-- Whether the mini-transaction is active:
`ut_ad(!m_commit || m_start); return m_start;` -/
def is_active (m : mtr_t) : Option Bool := do
  ut_ad (!m.m_commit || m.m_start)
  pure m.m_start

/-- Whether the mini-transaction has been committed:
`ut_ad(!m_commit || m_start); return m_commit;` -/
def has_committed (m : mtr_t) : Option Bool := do
  ut_ad (!m.m_commit || m.m_start)
  pure m.m_commit

/-- The mini-transaction savepoint (current size of m_memo):
`ut_ad(is_active()); return m_memo.size();` -/
def get_savepoint (m : mtr_t) : Option ulint := do
  let a ← is_active m
  ut_ad a
  pure m.m_memo.length

/-- The logging mode:
`ut_ad(m_log_mode <= MTR_LOG_NO_REDO); return static_cast<mtr_log_t>(m_log_mode);` -/
def get_log_mode (m : mtr_t) : Option mtr_log_t := do
  ut_ad (decide (m.m_log_mode ≤ mtr_log_t.MTR_LOG_NO_REDO.val))
  pure (mtr_log_t.of_val m.m_log_mode)

/-- Set the tablespace associated with the mini-transaction, by identifier.
The argument is a `ulint`; the debug field `m_user_space_id` is 32 bits wide. -/
def set_named_space_id (fil_system : fil_system_t) (m : mtr_t) (space_id : ulint) :
    Option (Option fil_space_t × mtr_t) := do
  ut_ad (decide (m.m_user_space_id = 0))
  let m1 := { m with m_user_space_id := space_id % 2 ^ 32 }
  if space_id = 0 then
    pure (fil_system.sys_space, m1)
  else do
    ut_ad (decide (m1.m_user_space_id = space_id))
    ut_ad m1.m_user_space.isNone
    let m2 := { m1 with m_user_space := fil_space_get fil_system space_id }
    ut_ad m2.m_user_space.isSome
    pure (m2.m_user_space, m2)

/-- Set the tablespace associated with the mini-transaction, by object. -/
def set_named_space (m : mtr_t) (space : fil_space_t) : Option mtr_t := do
  ut_ad (decide (m.m_user_space_id = 0))
  let m1 := { m with m_user_space_id := space.id % 2 ^ 32 }
  if space.id ≠ 0 then
    pure { m1 with m_user_space := some space }
  else
    pure m1

/-- Note that the mini-transaction has modified data: `m_modifications = true`. -/
def set_modified (m : mtr_t) : mtr_t :=
  { m with m_modifications := true }

/-- Set the state to not-modified: `m_modifications = false`. -/
def discard_modifications (m : mtr_t) : mtr_t :=
  { m with m_modifications := false }

/-- Whether the mini-transaction contains modifications. -/
def has_modifications (m : mtr_t) : Bool :=
  m.m_modifications

/-- The LSN of commit(): `ut_ad(has_committed()); return m_commit_lsn;` -/
def commit_lsn (m : mtr_t) : Option lsn_t := do
  let c ← has_committed m
  ut_ad c
  pure m.m_commit_lsn

/-- Whether a record was added to the mini-transaction: `return m_made_dirty`. -/
def is_dirty (m : mtr_t) : Bool :=
  m.m_made_dirty

/-- Note that a record has been added to the log: `++m_n_log_recs` on the
11-bit unsigned field. -/
def added_rec (m : mtr_t) : mtr_t :=
  { m with m_n_log_recs := (m.m_n_log_recs + 1) % 2 ^ 11 }

/-- The buffered redo log of this mini-transaction. -/
def get_log (m : mtr_t) : List mlog_rec_t :=
  m.m_log

/-- A mini-transaction object on which nothing has been done: all flags
clear, mode MTR_LOG_ALL, empty memo and log. -/
def mtr_t.inert : mtr_t :=
  { m_start := false, m_commit := false, m_log_mode := 0, m_modifications := false,
    m_made_dirty := false, m_inside_ibuf := false, m_n_log_recs := 0,
    m_user_space_id := 0, m_memo := [], m_log := [], m_user_space := none,
    m_flush_observer := none, m_commit_lsn := 0 }

/-! ## Calls into the latch and buffer-pool modules

The rw-latches and the buffer pool are outside the header.  A call into them is
recorded, in order, in a history of external calls. -/

/-- Modelled from the spec: the capabilities of the external collaborators
("acquireShared(location), acquireExclusive(location),
acquireSharedExclusive(location), release()", "markDirty(sequenceNumber)"),
as the calls that a mini-transaction makes on them. -/
inductive call_t
  /-- the call `rw_lock_s_lock_inline(lock, pass, file, line)` -/
  | rw_lock_s_lock (lock : rw_lock_t) (pass : Nat) (file : String) (line : Nat)
  /-- the call `rw_lock_x_lock_inline(lock, pass, file, line)` -/
  | rw_lock_x_lock (lock : rw_lock_t) (pass : Nat) (file : String) (line : Nat)
  /-- the call `rw_lock_sx_lock_inline(lock, pass, file, line)` -/
  | rw_lock_sx_lock (lock : rw_lock_t) (pass : Nat) (file : String) (line : Nat)
  /-- the release capability (unlatch or unpin) of the object of a memo slot -/
  | memo_slot_release (object : object_t) (type : mtr_memo_type_t)
  /-- stamping a modified page with the commit sequence number -/
  | set_newest_modification (block : object_t) (lsn : lsn_t)
  deriving DecidableEq, Repr

/-- A sequence of statements that makes external calls and may abort: run on
the history of calls made so far, it yields its result, or `none` when it
aborted, and the history after it.  The calls made before an abort have been
made: they stay in the history. -/
def mtr_op (α : Type) : Type :=
  List call_t → Option α × List call_t

/-- A statement that makes no external call. -/
def mtr_op.lift {α : Type} (r : Option α) : mtr_op α :=
  fun calls => (r, calls)

/-- Sequencing of statements: the second runs after the first, on the history
that the first has left, and does not run when the first aborted. -/
def mtr_op.bind {α β : Type} (a : mtr_op α) (f : α → mtr_op β) : mtr_op β :=
  fun calls =>
    match a calls with
    | (none, calls1) => (none, calls1)
    | (some x, calls1) => f x calls1

instance : Monad mtr_op where
  pure x := mtr_op.lift (some x)
  bind := mtr_op.bind

/-- Modelled from the spec: `rw_lock_s_lock_inline` belongs to sync0rw.h,
which is missing.  "acquireShared(location)": the call is recorded. -/
def rw_lock_s_lock_inline (lock : rw_lock_t) (pass : Nat) (file : String) (line : Nat) :
    mtr_op Unit :=
  fun calls => (some (), calls ++ [call_t.rw_lock_s_lock lock pass file line])

/-- Modelled from the spec: `rw_lock_x_lock_inline` belongs to sync0rw.h,
which is missing.  "acquireExclusive(location)": the call is recorded. -/
def rw_lock_x_lock_inline (lock : rw_lock_t) (pass : Nat) (file : String) (line : Nat) :
    mtr_op Unit :=
  fun calls => (some (), calls ++ [call_t.rw_lock_x_lock lock pass file line])

/-- Modelled from the spec: `rw_lock_sx_lock_inline` belongs to sync0rw.h,
which is missing.  "acquireSharedExclusive(location)": the call is recorded. -/
def rw_lock_sx_lock_inline (lock : rw_lock_t) (pass : Nat) (file : String) (line : Nat) :
    mtr_op Unit :=
  fun calls => (some (), calls ++ [call_t.rw_lock_sx_lock lock pass file line])

/-- Modelled from the spec: the body of `mtr_t::memo_push` (mtr0mtr.ic) is
missing.  "push(object, kind): append a slot"; "All mutating operations
(memoPush, write helpers, latch acquisition) require ACTIVE; violating this is
a fatal contract breach, asserted in debug builds". -/
def memo_push (m : mtr_t) (object : object_t) (type : mtr_memo_type_t) : Option mtr_t := do
  let a ← is_active m
  ut_ad a
  pure { m with m_memo := m.m_memo ++ [{ object := object, type := type }] }

/-- Acquire a shared rw-latch:
`rw_lock_s_lock_inline(lock, 0, file, line); memo_push(lock, MTR_MEMO_S_LOCK);` -/
def s_lock (m : mtr_t) (lock : rw_lock_t) (file : String) (line : Nat) : mtr_op mtr_t := do
  rw_lock_s_lock_inline lock 0 file line
  mtr_op.lift (memo_push m lock mtr_memo_type_t.MTR_MEMO_S_LOCK)

/-- Acquire an exclusive rw-latch:
`rw_lock_x_lock_inline(lock, 0, file, line); memo_push(lock, MTR_MEMO_X_LOCK);` -/
def x_lock (m : mtr_t) (lock : rw_lock_t) (file : String) (line : Nat) : mtr_op mtr_t := do
  rw_lock_x_lock_inline lock 0 file line
  mtr_op.lift (memo_push m lock mtr_memo_type_t.MTR_MEMO_X_LOCK)

/-- Acquire a shared/exclusive rw-latch:
`rw_lock_sx_lock_inline(lock, 0, file, line); memo_push(lock, MTR_MEMO_SX_LOCK);` -/
def sx_lock (m : mtr_t) (lock : rw_lock_t) (file : String) (line : Nat) : mtr_op mtr_t := do
  rw_lock_sx_lock_inline lock 0 file line
  mtr_op.lift (memo_push m lock mtr_memo_type_t.MTR_MEMO_SX_LOCK)

/-- The condition of the debug assertion on the purpose of a tablespace:
`purpose == FIL_TYPE_TEMPORARY || purpose == FIL_TYPE_IMPORT
|| purpose == FIL_TYPE_TABLESPACE`. -/
def purpose_ok (space : fil_space_t) : Bool :=
  decide (space.purpose = fil_type_t.FIL_TYPE_TEMPORARY)
    || decide (space.purpose = fil_type_t.FIL_TYPE_IMPORT)
    || decide (space.purpose = fil_type_t.FIL_TYPE_TABLESPACE)

/-- Acquire a tablespace S-latch: the assertion on the purpose, then
`s_lock(&space->latch, file, line)`. -/
def s_lock_space (m : mtr_t) (space : fil_space_t) (file : String) (line : Nat) :
    mtr_op mtr_t := do
  mtr_op.lift (ut_ad (purpose_ok space))
  s_lock m space.latch file line

/-- Acquire a tablespace X-latch: the assertion on the purpose, then
`x_lock(&space->latch, file, line)`. -/
def x_lock_space (m : mtr_t) (space : fil_space_t) (file : String) (line : Nat) :
    mtr_op mtr_t := do
  mtr_op.lift (ut_ad (purpose_ok space))
  x_lock m space.latch file line

/-- Modelled from the spec: the release of one memo slot is not in the
header.  "invoking the object's release capability (unlatch / unpin)": the
call is recorded. -/
def memo_slot_release (calls : List call_t) (slot : mtr_memo_slot_t) : List call_t :=
  calls ++ [call_t.memo_slot_release slot.object slot.type]

/-- Modelled from the spec: the bodies of the release functions of the memo
(`release_s_latch_at_savepoint`, `release_block_at_savepoint` in mtr0mtr.ic) are
missing.  "releaseAt(savepoint): release the slot(s) from savepoint to the end,
in reverse (LIFO) order, invoking the object's release capability (unlatch /
unpin) for each". -/
def release_at_savepoint (m : mtr_t) (calls : List call_t) (savepoint : ulint) :
    mtr_t × List call_t :=
  ({ m with m_memo := m.m_memo.take savepoint },
   (m.m_memo.drop savepoint).reverse.foldl memo_slot_release calls)

/-- Modelled from the spec: the body of `mtr_t::release_resources`
(mtr0mtr.cc) is missing.  "releaseResources() releases every MemoStack slot in
reverse order and clears the LogBuffer". -/
def release_resources (m : mtr_t) (calls : List call_t) : mtr_t × List call_t :=
  let r := release_at_savepoint m calls 0
  ({ r.1 with m_log := [] }, r.2)

/-- Modelled from the spec: the body of `mtr_t::set_log_mode` (mtr0mtr.ic) is
missing.  "setLogMode(mode) -> previousMode: switch mode mid-transaction"; the
header documents "Change the logging mode; return old mode".  The new mode is
stored in the two-bit field `m_log_mode`. -/
def set_log_mode (m : mtr_t) (mode : mtr_log_t) : Option (mtr_log_t × mtr_t) := do
  let old_mode ← get_log_mode m
  pure (old_mode, { m with m_log_mode := mode.val % 2 ^ 2 })

/-! ## Page writes -/

/-- Modelled from the spec: the system-wide redo log `log_sys` is declared in
log0log.h, which is missing.  It is the "strictly-ordered append target" of the
reservation protocol: the next free sequence number, the first sequence number
of the region reserved last, and the records appended so far. -/
structure log_t where
  lsn : lsn_t
  reserved_start : lsn_t
  records : List mlog_rec_t
  deriving DecidableEq, Repr

/-- Modelled from the spec: "totalLength(): sum of encoded record sizes".  The
encoded size of a record is a parameter. -/
def total_length (rec_size : mlog_rec_t → Nat) (log : List mlog_rec_t) : Nat :=
  (log.map rec_size).sum

/-- Modelled from the spec: the body of `mtr_t::prepare_write` (mtr0mtr.cc) is
missing.  "Reserve: compute the exact byte length required to append this
mini-transaction's LogBuffer to the global log; atomically reserve that many
bytes of the global log's address space and obtain the first sequence number of
the reserved region".  Returns the number of bytes to write in finish_write. -/
def prepare_write (rec_size : mlog_rec_t → Nat) (m : mtr_t) (log_sys : log_t) :
    ulint × log_t :=
  let len := total_length rec_size m.m_log
  (len, { log_sys with reserved_start := log_sys.lsn, lsn := log_sys.lsn + len })

/-- Modelled from the spec: the body of `mtr_t::finish_write` (mtr0mtr.cc) is
missing.  "Finish: copy the LogBuffer's records into the reserved region and
return the starting sequence number as the mini-transaction's commit sequence
number". -/
def finish_write (m : mtr_t) (_len : ulint) (log_sys : log_t) : lsn_t × log_t :=
  (log_sys.reserved_start, { log_sys with records := log_sys.records ++ m.m_log })

/-- Modelled from the spec: "for every page recorded in the memo as modified,
stamp it with the commit sequence number". -/
def stamp_modified (memo : List mtr_memo_slot_t) (lsn : lsn_t) (calls : List call_t) :
    List call_t :=
  calls ++ (memo.filter (fun slot => decide (slot.type = mtr_memo_type_t.MTR_MEMO_MODIFY))).map
    (fun slot => call_t.set_newest_modification slot.object lsn)

/-- Modelled from the spec: the body of `mtr_t::commit` (mtr0mtr.cc) is
missing.  commit() "asserts was ACTIVE" and "transitions to COMMITTED".  A
mini-transaction with an empty log "produced no durable redo": its latches are
released and "its commit sequence number is zero".  Otherwise the log is
appended by prepare_write and finish_write, the commit sequence number is the
starting sequence number returned by finish_write, the modified pages are
stamped with it, and the resources are released. -/
def commit (rec_size : mlog_rec_t → Nat) (m : mtr_t) (log_sys : log_t)
    (calls : List call_t) : Option (mtr_t × log_t × List call_t) := do
  let a ← is_active m
  ut_ad a
  if m.m_log.isEmpty then
    let r := release_resources m calls
    pure ({ r.1 with m_commit := true, m_commit_lsn := 0 }, log_sys, r.2)
  else
    let p := prepare_write rec_size m log_sys
    let f := finish_write m p.1 p.2
    let calls1 := stamp_modified m.m_memo f.1 calls
    let r := release_resources m calls1
    pure ({ r.1 with m_commit := true, m_commit_lsn := f.1 }, f.2, r.2)

/-! ## Concrete states used in the examples -/

/-- An active mini-transaction in the mode MTR_LOG_ALL with nothing recorded. -/
def mtr_t.started : mtr_t :=
  { mtr_t.inert with m_start := true }

/-- A user tablespace with identifier 5. -/
def example_space : fil_space_t :=
  ⟨5, fil_type_t.FIL_TYPE_TABLESPACE, 40⟩

/-- A tablespace registry holding the system tablespace and `example_space`. -/
def example_fil_system : fil_system_t :=
  ⟨some ⟨0, fil_type_t.FIL_TYPE_TABLESPACE, 8⟩,
   fun n => if n = 5 then some example_space else none⟩

/-- A redo log whose next free sequence number is 8192. -/
def example_log : log_t :=
  ⟨8192, 0, []⟩

/-- An active mini-transaction that holds one shared latch. -/
def example_latched : mtr_t :=
  { mtr_t.started with m_memo := [⟨3, mtr_memo_type_t.MTR_MEMO_S_LOCK⟩] }

/-- An active mini-transaction that has x-fixed a page and logged one write of
four bytes to it. -/
def example_written : mtr_t :=
  { mtr_t.started with
    m_modifications := true, m_n_log_recs := 1,
    m_memo := [⟨64, mtr_memo_type_t.MTR_MEMO_PAGE_X_FIX⟩],
    m_log := [⟨4, 5, 3, 16, [0, 0, 0, 42]⟩] }

/-- The state in which both start() and commit() have been called. -/
def example_committed : mtr_t :=
  { mtr_t.started with m_commit := true }

/-! ## Auxiliary facts -/

theorem is_active_eq_some_true {m : mtr_t} (h : is_active m = some true) :
    m.m_start = true := by
  unfold is_active ut_ad at h
  by_cases hc : (!m.m_commit || m.m_start) = true
  · simpa [hc] using h
  · simp [hc] at h

theorem memo_push_active {m : mtr_t} (h : is_active m = some true) (object : object_t)
    (type : mtr_memo_type_t) :
    memo_push m object type = some { m with m_memo := m.m_memo ++ [⟨object, type⟩] } := by
  simp [memo_push, h, ut_ad]

theorem memo_push_not_active {m : mtr_t} (h : is_active m ≠ some true) (object : object_t)
    (type : mtr_memo_type_t) : memo_push m object type = none := by
  unfold memo_push
  cases ha : is_active m with
  | none => rfl
  | some a =>
    cases a
    · rfl
    · exact absurd ha h

theorem is_active_with_memo (m : mtr_t) (memo : List mtr_memo_slot_t) :
    is_active { m with m_memo := memo } = is_active m := rfl

/-! ## The record counter -/

/-- C1 (as the code behaves): `added_rec()` performs no bound check and always
returns; on the 11-bit counter it yields n + 1 for every n < 2047 and wraps
from 2047 to 0.  No other field changes. -/
theorem added_rec_counter (m : mtr_t) (h : m.m_n_log_recs < 2 ^ 11) :
    (added_rec m).m_n_log_recs
        = (if m.m_n_log_recs < 2047 then m.m_n_log_recs + 1 else 0)
      ∧ added_rec m = { m with m_n_log_recs := (added_rec m).m_n_log_recs } := by
  constructor
  · simp only [added_rec]
    split_ifs with h1
    · exact Nat.mod_eq_of_lt (by omega)
    · have h2 : m.m_n_log_recs = 2047 := by omega
      rw [h2]
      norm_num
  · rfl

theorem added_rec_counter_witness :
    (added_rec { mtr_t.inert with m_n_log_recs := 2046 }).m_n_log_recs = 2047 :=
  (added_rec_counter { mtr_t.inert with m_n_log_recs := 2046 } (by decide)).1

/-- C1 (counterexample): with the counter at its ceiling 2047, `added_rec()`
returns normally and leaves the counter at 0. -/
theorem added_rec_wraps_at_ceiling :
    (added_rec { mtr_t.started with m_n_log_recs := 2047 }).m_n_log_recs = 0 := by
  decide

/-! ## Savepoints -/

/-- C6: for an active mini-transaction `get_savepoint()` returns the current
size of the memo stack and leaves the mini-transaction as it was, so that two
consecutive calls return the same value. -/
theorem get_savepoint_is_memo_size (m : mtr_t) (h : is_active m = some true) :
    get_savepoint m = some m.m_memo.length
      ∧ call_const get_savepoint m = some (m.m_memo.length, m)
      ∧ ((call_const get_savepoint m).bind fun r1 =>
          (call_const get_savepoint r1.2).map fun r2 => (r1.1, r2.1, r2.2))
        = some (m.m_memo.length, m.m_memo.length, m) := by
  have hs : get_savepoint m = some m.m_memo.length := by
    simp [get_savepoint, h, ut_ad]
  simp [call_const, hs]

theorem get_savepoint_is_memo_size_witness :
    get_savepoint example_latched = some 1 :=
  (get_savepoint_is_memo_size example_latched (by decide)).1

/-! ## The modification flag -/

/-- C7: `set_modified()` makes `has_modifications()` true and
`discard_modifications()` makes it false; both leave every other field (the
log, the record counter, the memo, the logging mode, m_made_dirty,
m_inside_ibuf, the commit LSN, and the rest) unchanged, and both are
idempotent. -/
theorem modification_flag_frame (m : mtr_t) :
    has_modifications (set_modified m) = true
      ∧ has_modifications (discard_modifications m) = false
      ∧ set_modified m = { m with m_modifications := true }
      ∧ discard_modifications m = { m with m_modifications := false }
      ∧ (set_modified m).m_log = m.m_log
      ∧ (set_modified m).m_n_log_recs = m.m_n_log_recs
      ∧ (set_modified m).m_memo = m.m_memo
      ∧ (set_modified m).m_log_mode = m.m_log_mode
      ∧ (set_modified m).m_made_dirty = m.m_made_dirty
      ∧ (set_modified m).m_inside_ibuf = m.m_inside_ibuf
      ∧ (set_modified m).m_commit_lsn = m.m_commit_lsn
      ∧ (discard_modifications m).m_log = m.m_log
      ∧ (discard_modifications m).m_n_log_recs = m.m_n_log_recs
      ∧ (discard_modifications m).m_memo = m.m_memo
      ∧ (discard_modifications m).m_log_mode = m.m_log_mode
      ∧ (discard_modifications m).m_made_dirty = m.m_made_dirty
      ∧ (discard_modifications m).m_inside_ibuf = m.m_inside_ibuf
      ∧ (discard_modifications m).m_commit_lsn = m.m_commit_lsn
      ∧ set_modified (set_modified m) = set_modified m
      ∧ discard_modifications (discard_modifications m) = discard_modifications m := by
  simp [has_modifications, set_modified, discard_modifications]

/-! ## Lifecycle flags -/

/-- C8 (defect): in the state in which start() and commit() have both been
called, which satisfies the debug invariant (m_commit implies m_start),
`has_committed()` is true and `is_active()`, which returns m_start alone, is
true as well; the guard `ut_ad(is_active())` of `get_savepoint()` passes on
this committed mini-transaction. -/
theorem active_and_committed_together :
    (example_committed.m_commit = true → example_committed.m_start = true)
      ∧ has_committed example_committed = some true
      ∧ is_active example_committed = some true
      ∧ get_savepoint example_committed = some 0 := by
  decide

/-! ## The logging mode -/

theorem of_val_val (mode : mtr_log_t) : mtr_log_t.of_val (mode.val % 2 ^ 2) = mode := by
  cases mode <;> rfl

theorem val_le (mode : mtr_log_t) : mode.val % 2 ^ 2 ≤ mtr_log_t.MTR_LOG_NO_REDO.val := by
  cases mode <;> decide

theorem get_log_mode_set (m : mtr_t) (mode : mtr_log_t) :
    get_log_mode { m with m_log_mode := mode.val % 2 ^ 2 } = some mode := by
  simp only [get_log_mode, ut_ad, val_le, decide_True, if_true, of_val_val]
  rfl

theorem get_log_mode_eq_some {m : mtr_t} {p : mtr_log_t} (h : get_log_mode m = some p) :
    m.m_log_mode = p.val % 2 ^ 2 := by
  unfold get_log_mode ut_ad at h
  by_cases hle : m.m_log_mode ≤ mtr_log_t.MTR_LOG_NO_REDO.val
  · simp only [hle, decide_True, if_true] at h
    have h2 : mtr_log_t.of_val m.m_log_mode = p := by simpa using h
    have h3 : m.m_log_mode ≤ 2 := hle
    interval_cases hv : m.m_log_mode <;> subst h2 <;> rfl
  · simp [hle] at h

/-- C9: for a mini-transaction with logging mode p, `set_log_mode(m)` returns p
and afterwards `get_log_mode()` returns m; calling `set_log_mode` again with
the returned mode gives back m and restores the mini-transaction, with mode p. -/
theorem set_log_mode_returns_previous (m : mtr_t) (p mode : mtr_log_t)
    (h : get_log_mode m = some p) :
    ∃ m1, set_log_mode m mode = some (p, m1)
      ∧ get_log_mode m1 = some mode
      ∧ set_log_mode m1 p = some (mode, m)
      ∧ ((set_log_mode m mode).bind fun r => set_log_mode r.2 r.1) = some (mode, m) := by
  have h1 : set_log_mode m mode = some (p, { m with m_log_mode := mode.val % 2 ^ 2 }) := by
    simp [set_log_mode, h]
  have h2 : set_log_mode { m with m_log_mode := mode.val % 2 ^ 2 } p = some (mode, m) := by
    simp only [set_log_mode, get_log_mode_set]
    have h3 := get_log_mode_eq_some h
    cases m
    simp only at h3
    subst h3
    rfl
  exact ⟨_, h1, get_log_mode_set m mode, h2, by rw [h1]; exact h2⟩

theorem set_log_mode_returns_previous_witness :
    ∃ m1, set_log_mode mtr_t.started mtr_log_t.MTR_LOG_NO_REDO
          = some (mtr_log_t.MTR_LOG_ALL, m1)
      ∧ get_log_mode m1 = some mtr_log_t.MTR_LOG_NO_REDO
      ∧ set_log_mode m1 mtr_log_t.MTR_LOG_ALL
          = some (mtr_log_t.MTR_LOG_NO_REDO, mtr_t.started)
      ∧ ((set_log_mode mtr_t.started mtr_log_t.MTR_LOG_NO_REDO).bind
            fun r => set_log_mode r.2 r.1)
          = some (mtr_log_t.MTR_LOG_NO_REDO, mtr_t.started) :=
  set_log_mode_returns_previous mtr_t.started mtr_log_t.MTR_LOG_ALL
    mtr_log_t.MTR_LOG_NO_REDO (by decide)

/-! ## Naming a tablespace -/

/-- C10: for a mini-transaction with no associated tablespace yet and a
tablespace `space` (with a 32-bit identifier) that `fil_space_get` finds under
its identifier, `set_named_space(space)` and `set_named_space_id(space->id)`
leave the mini-transaction in the same state; m_user_space is `space` when the
identifier is nonzero and unchanged when it is 0; `set_named_space_id` returns
`fil_system.sys_space` for 0 and the looked-up tablespace otherwise. -/
theorem named_space_agree (fil_system : fil_system_t) (m : mtr_t) (space : fil_space_t)
    (hid : m.m_user_space_id = 0) (hsp : m.m_user_space = none)
    (hget : fil_space_get fil_system space.id = some space)
    (h32 : space.id < 2 ^ 32) :
    ∃ m1, set_named_space m space = some m1
      ∧ set_named_space_id fil_system m space.id
          = some (if space.id = 0 then fil_system.sys_space
                  else fil_space_get fil_system space.id, m1)
      ∧ (space.id ≠ 0 → m1.m_user_space = some space)
      ∧ (space.id = 0 → m1.m_user_space = m.m_user_space)
      ∧ m1.m_user_space_id = space.id := by
  have hmod : space.id % 2 ^ 32 = space.id := Nat.mod_eq_of_lt h32
  have h32n : space.id < 4294967296 := h32
  by_cases h0 : space.id = 0
  · refine ⟨{ m with m_user_space_id := space.id % 2 ^ 32 }, ?_, ?_, ?_, ?_, ?_⟩
    · simp [set_named_space, ut_ad, hid, h0]
    · simp [set_named_space_id, ut_ad, hid, h0]
    · intro hne
      exact absurd h0 hne
    · intro _
      rfl
    · exact hmod
  · refine ⟨{ m with m_user_space_id := space.id % 2 ^ 32, m_user_space := some space },
      ?_, ?_, ?_, ?_, ?_⟩
    · simp [set_named_space, ut_ad, hid, h0]
    · simp [set_named_space_id, ut_ad, hid, h0, hmod, hsp, hget, h32n]
    · intro _
      rfl
    · intro he
      exact absurd he h0
    · exact hmod

theorem named_space_agree_witness :
    ∃ m1, set_named_space mtr_t.started example_space = some m1
      ∧ set_named_space_id example_fil_system mtr_t.started 5
          = some (some example_space, m1) :=
  (named_space_agree example_fil_system mtr_t.started example_space
    rfl rfl rfl (by decide)).imp fun _ hm => ⟨hm.1, hm.2.1⟩

/-! ## Latch acquisition -/

theorem mtr_op_bind_run {α β : Type} (a : mtr_op α) (f : α → mtr_op β)
    (calls : List call_t) :
    (a >>= f) calls
      = match a calls with
        | (none, calls1) => (none, calls1)
        | (some x, calls1) => f x calls1 := rfl

/-- C5: `s_lock(lock, file, line)` first acquires the latch in shared mode and
then pushes exactly one memo slot (lock, MTR_MEMO_S_LOCK); `x_lock` and
`sx_lock` do the same with an exclusive (shared-exclusive) acquisition and the
slot kinds MTR_MEMO_X_LOCK (MTR_MEMO_SX_LOCK); `s_lock_space` and
`x_lock_space`, on a tablespace whose purpose passes their assertion, do the
same for `&space->latch`.  On an ACTIVE mini-transaction exactly one slot is
appended and exactly one acquisition is made.  The acquisition comes first:
it is made whether or not the push succeeds, so that on a mini-transaction
that is not ACTIVE the latch has been acquired by the time the push aborts.
The resulting mini-transaction does not depend on the file or the line. -/
theorem latch_acquisition_records_slot (m : mtr_t) (calls : List call_t)
    (lock : rw_lock_t) (space : fil_space_t) (file file2 : String) (line line2 : Nat) :
    (is_active m = some true →
        s_lock m lock file line calls
          = (some { m with m_memo :=
                      m.m_memo ++ [⟨lock, mtr_memo_type_t.MTR_MEMO_S_LOCK⟩] },
             calls ++ [call_t.rw_lock_s_lock lock 0 file line])
        ∧ x_lock m lock file line calls
          = (some { m with m_memo :=
                      m.m_memo ++ [⟨lock, mtr_memo_type_t.MTR_MEMO_X_LOCK⟩] },
             calls ++ [call_t.rw_lock_x_lock lock 0 file line])
        ∧ sx_lock m lock file line calls
          = (some { m with m_memo :=
                      m.m_memo ++ [⟨lock, mtr_memo_type_t.MTR_MEMO_SX_LOCK⟩] },
             calls ++ [call_t.rw_lock_sx_lock lock 0 file line])
        ∧ (purpose_ok space = true →
            s_lock_space m space file line calls
              = (some { m with m_memo :=
                          m.m_memo ++ [⟨space.latch, mtr_memo_type_t.MTR_MEMO_S_LOCK⟩] },
                 calls ++ [call_t.rw_lock_s_lock space.latch 0 file line])
            ∧ x_lock_space m space file line calls
              = (some { m with m_memo :=
                          m.m_memo ++ [⟨space.latch, mtr_memo_type_t.MTR_MEMO_X_LOCK⟩] },
                 calls ++ [call_t.rw_lock_x_lock space.latch 0 file line])))
      ∧ (is_active m ≠ some true →
          s_lock m lock file line calls
            = (none, calls ++ [call_t.rw_lock_s_lock lock 0 file line])
          ∧ x_lock m lock file line calls
            = (none, calls ++ [call_t.rw_lock_x_lock lock 0 file line])
          ∧ sx_lock m lock file line calls
            = (none, calls ++ [call_t.rw_lock_sx_lock lock 0 file line])
          ∧ (purpose_ok space = true →
              s_lock_space m space file line calls
                = (none, calls ++ [call_t.rw_lock_s_lock space.latch 0 file line])
              ∧ x_lock_space m space file line calls
                = (none, calls ++ [call_t.rw_lock_x_lock space.latch 0 file line])))
      ∧ ((s_lock m lock file2 line2 calls).1 = (s_lock m lock file line calls).1
        ∧ (x_lock m lock file2 line2 calls).1 = (x_lock m lock file line calls).1
        ∧ (sx_lock m lock file2 line2 calls).1 = (sx_lock m lock file line calls).1
        ∧ (s_lock_space m space file2 line2 calls).1
            = (s_lock_space m space file line calls).1
        ∧ (x_lock_space m space file2 line2 calls).1
            = (x_lock_space m space file line calls).1) := by
  have hs : ∀ (lk : rw_lock_t) (f : String) (n : Nat),
      s_lock m lk f n calls
        = (memo_push m lk mtr_memo_type_t.MTR_MEMO_S_LOCK,
           calls ++ [call_t.rw_lock_s_lock lk 0 f n]) := fun _ _ _ => rfl
  have hx : ∀ (lk : rw_lock_t) (f : String) (n : Nat),
      x_lock m lk f n calls
        = (memo_push m lk mtr_memo_type_t.MTR_MEMO_X_LOCK,
           calls ++ [call_t.rw_lock_x_lock lk 0 f n]) := fun _ _ _ => rfl
  have hsx : ∀ (lk : rw_lock_t) (f : String) (n : Nat),
      sx_lock m lk f n calls
        = (memo_push m lk mtr_memo_type_t.MTR_MEMO_SX_LOCK,
           calls ++ [call_t.rw_lock_sx_lock lk 0 f n]) := fun _ _ _ => rfl
  have hss : ∀ (f : String) (n : Nat), purpose_ok space = true →
      s_lock_space m space f n calls = s_lock m space.latch f n calls := by
    intro f n hp
    simp only [s_lock_space, mtr_op_bind_run, mtr_op.lift, hp, ut_ad, if_true]
  have hxs : ∀ (f : String) (n : Nat), purpose_ok space = true →
      x_lock_space m space f n calls = x_lock m space.latch f n calls := by
    intro f n hp
    simp only [x_lock_space, mtr_op_bind_run, mtr_op.lift, hp, ut_ad, if_true]
  have hsn : ∀ (f : String) (n : Nat), purpose_ok space = false →
      s_lock_space m space f n calls = (none, calls) := by
    intro f n hp
    simp [s_lock_space, mtr_op_bind_run, mtr_op.lift, hp, ut_ad]
  have hxn : ∀ (f : String) (n : Nat), purpose_ok space = false →
      x_lock_space m space f n calls = (none, calls) := by
    intro f n hp
    simp [x_lock_space, mtr_op_bind_run, mtr_op.lift, hp, ut_ad]
  refine ⟨?_, ?_, ⟨?_, ?_, ?_, ?_, ?_⟩⟩
  · intro ha
    refine ⟨?_, ?_, ?_, ?_⟩
    · rw [hs, memo_push_active ha]
    · rw [hx, memo_push_active ha]
    · rw [hsx, memo_push_active ha]
    · intro hp
      rw [hss _ _ hp, hxs _ _ hp, hs, hx, memo_push_active ha, memo_push_active ha]
      exact ⟨rfl, rfl⟩
  · intro hna
    refine ⟨?_, ?_, ?_, ?_⟩
    · rw [hs, memo_push_not_active hna]
    · rw [hx, memo_push_not_active hna]
    · rw [hsx, memo_push_not_active hna]
    · intro hp
      rw [hss _ _ hp, hxs _ _ hp, hs, hx, memo_push_not_active hna,
        memo_push_not_active hna]
      exact ⟨rfl, rfl⟩
  · rw [hs, hs]
  · rw [hx, hx]
  · rw [hsx, hsx]
  · cases hp : purpose_ok space
    · rw [hsn _ _ hp, hsn _ _ hp]
    · rw [hss _ _ hp, hss _ _ hp, hs, hs]
  · cases hp : purpose_ok space
    · rw [hxn _ _ hp, hxn _ _ hp]
    · rw [hxs _ _ hp, hxs _ _ hp, hx, hx]

theorem latch_acquisition_records_slot_witness :
    s_lock_space mtr_t.started example_space "btr0cur.cc" 17 []
      = (some { mtr_t.started with
                  m_memo := [⟨40, mtr_memo_type_t.MTR_MEMO_S_LOCK⟩] },
         [call_t.rw_lock_s_lock 40 0 "btr0cur.cc" 17]) :=
  (((latch_acquisition_records_slot mtr_t.started [] 40 example_space
    "btr0cur.cc" "fsp0fsp.cc" 17 99).1 (by decide)).2.2.2 (by decide)).1

/-! ## Release of the memo in reverse order -/

theorem memo_push_foldlM (pushes : List (object_t × mtr_memo_type_t)) (m : mtr_t)
    (h : is_active m = some true) :
    pushes.foldlM (fun acc p => memo_push acc p.1 p.2) m
      = some { m with m_memo := m.m_memo ++ pushes.map fun p => ⟨p.1, p.2⟩ } := by
  induction pushes generalizing m with
  | nil => simp
  | cons p ps ih =>
    rw [List.foldlM_cons, memo_push_active h]
    have h1 : is_active { m with m_memo := m.m_memo ++ [⟨p.1, p.2⟩] } = some true := by
      rw [is_active_with_memo]
      exact h
    simp only [Option.some_bind, Option.bind_eq_bind]
    rw [ih _ h1]
    simp

theorem memo_slot_release_foldl (slots : List mtr_memo_slot_t) (calls : List call_t) :
    slots.foldl memo_slot_release calls
      = calls ++ slots.map fun slot => call_t.memo_slot_release slot.object slot.type := by
  induction slots generalizing calls with
  | nil => simp
  | cons slot rest ih =>
    rw [List.foldl_cons, ih]
    simp [memo_slot_release]

/-- C2: for an active mini-transaction with memo stack M and savepoint
s = get_savepoint(), every sequence of `memo_push` calls (o1,k1)...(on,kn)
succeeds, and a release at savepoint s afterwards leaves the memo stack equal
to M, the prefix of length s, and indeed the whole mini-transaction as it was
before the pushes; the release capability is invoked on the pushed objects in
reverse push order on, ..., o1. -/
theorem memo_release_is_lifo (m : mtr_t) (calls : List call_t)
    (pushes : List (object_t × mtr_memo_type_t)) (h : is_active m = some true) :
    ∃ s m1, get_savepoint m = some s
      ∧ s = m.m_memo.length
      ∧ pushes.foldlM (fun acc p => memo_push acc p.1 p.2) m = some m1
      ∧ (release_at_savepoint m1 calls s).1.m_memo = m.m_memo
      ∧ m.m_memo = m1.m_memo.take s
      ∧ (release_at_savepoint m1 calls s).1 = m
      ∧ (release_at_savepoint m1 calls s).2
          = calls ++ pushes.reverse.map fun p => call_t.memo_slot_release p.1 p.2 := by
  refine ⟨m.m_memo.length, _, ?_, rfl, memo_push_foldlM pushes m h, ?_, ?_, ?_, ?_⟩
  · simp [get_savepoint, h, ut_ad]
  · simp [release_at_savepoint]
  · simp
  · simp [release_at_savepoint]
  · have hd : (m.m_memo ++ pushes.map fun p => (⟨p.1, p.2⟩ : mtr_memo_slot_t)).drop
        m.m_memo.length = pushes.map fun p => ⟨p.1, p.2⟩ := by simp
    simp only [release_at_savepoint, hd, memo_slot_release_foldl]
    simp [List.map_reverse]

theorem memo_release_is_lifo_witness :
    ∃ s m1, get_savepoint example_latched = some s
      ∧ s = 1
      ∧ [(5, mtr_memo_type_t.MTR_MEMO_X_LOCK),
          (6, mtr_memo_type_t.MTR_MEMO_PAGE_X_FIX)].foldlM
            (fun acc p => memo_push acc p.1 p.2) example_latched = some m1
      ∧ (release_at_savepoint m1 [] s).1 = example_latched
      ∧ (release_at_savepoint m1 [] s).2
          = [call_t.memo_slot_release 6 mtr_memo_type_t.MTR_MEMO_PAGE_X_FIX,
             call_t.memo_slot_release 5 mtr_memo_type_t.MTR_MEMO_X_LOCK] :=
  (memo_release_is_lifo example_latched []
    [(5, mtr_memo_type_t.MTR_MEMO_X_LOCK), (6, mtr_memo_type_t.MTR_MEMO_PAGE_X_FIX)]
    (by decide)).imp fun _ h1 => h1.imp fun _ hs =>
      ⟨hs.1, hs.2.1, hs.2.2.1, hs.2.2.2.2.2.1, hs.2.2.2.2.2.2⟩

/-! ## Emission of log records by page writes -/

/-- C3: for an active mini-transaction, and a redo log whose sequence numbers
are nonzero, `commit()` succeeds and afterwards `commit_lsn()` is 0 if and only
if the log of the mini-transaction was empty at commit time; otherwise it is
the start LSN returned by `finish_write` for the region reserved by
`prepare_write`, which is the first free sequence number of the redo log. -/
theorem commit_lsn_zero_iff_empty (rec_size : mlog_rec_t → Nat) (m : mtr_t)
    (log_sys : log_t) (calls : List call_t) (h : is_active m = some true)
    (hlsn : 0 < log_sys.lsn) :
    ∃ m1 log1 calls1, commit rec_size m log_sys calls = some (m1, log1, calls1)
      ∧ ∃ v, commit_lsn m1 = some v
        ∧ (v = 0 ↔ get_log m = [])
        ∧ (get_log m ≠ [] →
            v = (finish_write m (prepare_write rec_size m log_sys).1
                  (prepare_write rec_size m log_sys).2).1
            ∧ v = log_sys.lsn) := by
  have hstart : m.m_start = true := is_active_eq_some_true h
  cases hlog : m.m_log with
  | nil =>
    refine ⟨_, _, _, by simp [commit, h, ut_ad, hlog]; exact ⟨rfl, rfl, rfl⟩, 0, ?_, ?_, ?_⟩
    · simp [commit_lsn, has_committed, ut_ad, release_resources, release_at_savepoint,
        hstart]
    · simp [get_log, hlog]
    · intro hne
      simp [get_log, hlog] at hne
  | cons r rs =>
    refine ⟨_, _, _, by simp [commit, h, ut_ad, hlog]; exact ⟨rfl, rfl, rfl⟩,
      log_sys.lsn, ?_, ?_, ?_⟩
    · simp [commit_lsn, has_committed, ut_ad, release_resources, release_at_savepoint,
        hstart, finish_write, prepare_write]
    · constructor
      · intro hz
        exact absurd hz (Nat.ne_of_gt hlsn)
      · intro he
        simp [get_log, hlog] at he
    · intro _
      simp [finish_write, prepare_write]

theorem commit_lsn_zero_iff_empty_witness :
    ∃ m1 log1 calls1,
      commit (fun r => 3 + r.payload.length) example_written example_log []
          = some (m1, log1, calls1)
        ∧ commit_lsn m1 = some 8192 :=
  (commit_lsn_zero_iff_empty (fun r => 3 + r.payload.length) example_written
    example_log [] (by decide) (by decide)).imp fun _ h1 => h1.imp fun _ h2 =>
      h2.imp fun _ h3 => ⟨h3.1, h3.2.elim fun _ hv => by
        rw [hv.1, (hv.2.2 (by decide)).2]
        rfl⟩

end Mtr
